import Mathlib

/-!
Verification of the Madox DB proxy (main.py) against its specification.

The embedding translates the module main.py into Lean:
  - `verify_api_key`  : the x-api-key dependency check;
  - `run_coded_query` : the POST /query handler body, returning the response
    together with an explicit trace of its side effects (lock, audit queue,
    connection, cursor, executed statements, commit);
  - `get_user_lock` / `runCalls` : the identity-lock registry, serialized by
    the global dict_lock, hence modelled as sequential atomic operations;
  - `log_worker_run`  : iterations of the background audit worker loop.

Machine-level concerns (real threads, sockets, MySQL, Google Sheets) are
abstracted into an environment `Env` describing the outcomes the external
world can produce, exactly at the call sites where main.py consumes them.
-/

namespace Madox

/-- Scalar request parameters (pydantic `params: list = []`). -/
inductive Scalar where
  | str (v : String)
  | int (v : Int)
  | boolean (v : Bool)
  | null
deriving DecidableEq

/-- One row fetched by a dictionary cursor: field name to value. -/
abbrev Row := List (String × Scalar)

/-- Python ASCII whitespace recognised by str.strip(). -/
def pyIsSpace (c : Char) : Bool :=
  c = ' ' || c = '\t' || c = '\n' || c = '\r'

/-- Python str.strip(): drop leading and trailing whitespace. -/
def pyStrip (s : String) : String :=
  ⟨((s.data.dropWhile pyIsSpace).reverse.dropWhile pyIsSpace).reverse⟩

/-- Python str.lower() on the ASCII range used by the SQL templates. -/
def pyLower (s : String) : String :=
  ⟨s.data.map Char.toLower⟩

/-- str.startswith on character lists: the first argument is the keyword,
the second the text searched. -/
def listStarts : List Char → List Char → Bool
  | [], _ => true
  | _ :: _, [] => false
  | k :: ks, c :: cs => k == c && listStarts ks cs

/-- Python s.strip().lower().startswith(kw), the classification used at
line 149 of main.py. -/
def startsWithKw (s kw : String) : Bool :=
  listStarts kw.data (pyLower (pyStrip s)).data

/-- verify_api_key (main.py lines 110-113).  `apiKey` is the API_KEY
environment value (`none` when unset), `sentKey` the x-api-key header
(`none` when absent).  Python truthiness makes `not API_KEY` and
`not sent_key` true on both `None` and the empty string; the comparison
is between stripped values.  Returns `true` when the request passes. -/
def verify_api_key (apiKey sentKey : Option String) : Bool :=
  match apiKey, sentKey with
  | some k, some s =>
      if k = "" then false
      else if s = "" then false
      else pyStrip s == pyStrip k
  | _, _ => false

/-- QUERY_DICT lookup: `data.query_code in QUERY_DICT` and
`QUERY_DICT[data.query_code]` combined, over an association list. -/
def lookupTemplate : List (String × String) → String → Option String
  | [], _ => none
  | (c, t) :: rest, code => if c = code then some t else lookupTemplate rest code

/-- The request body model CodedSQLRequest (main.py lines 117-120). -/
structure CodedSQLRequest where
  user_id : String
  query_code : String
  params : List Scalar
deriving DecidableEq

/-- An item put on log_queue (main.py line 137): user id, resolved SQL
template, parameters. -/
abbrev AuditRecord := String × String × List Scalar

/-- Responses the endpoint can produce.  `codeBody c` is the shape
`{"code": c}` that the specification attributes to coded login flows; it is
part of the response vocabulary so that claims about it can be stated. -/
inductive Response where
  | success_data (rows : List Row)
  | success_rows_affected (n : Int)
  | codeBody (c : String)
  | httpError (status : Nat) (detail : String)
deriving DecidableEq

/-- The outcomes the external world hands to one request. -/
structure Env where
  /-- API_KEY environment variable. -/
  apiKey : Option String
  /-- QUERY_DICT, loaded from queries.json ([] after a load failure). -/
  registry : List (String × String)
  /-- Whether the MySQL connection pool initialized (connection_pool is
  not None). -/
  poolInit : Bool
  /-- Outcome of connection_pool.get_connection(): ok, or a MySQLError
  message. -/
  getConn : Except String Unit
  /-- Outcome of cursor.execute on a template and parameters: a MySQLError
  message, or (fetched rows, cursor.rowcount). -/
  execStmt : String → List Scalar → Except String (List Row × Int)
  /-- What conn.is_connected() reports in the finally block: false when the
  connection died during the request (as after a lost-connection error). -/
  connAlive : Bool

/-- Observable side effects of one request. -/
structure Effects where
  lockAcquired : Bool := false
  lockReleased : Bool := false
  auditEnqueued : List AuditRecord := []
  connAcquired : Bool := false
  cursorOpened : Bool := false
  execAttempts : List (String × List Scalar) := []
  committed : Bool := false
  cursorClosed : Bool := false
  connClosed : Bool := false
deriving DecidableEq

def emptyEffects : Effects := {}

/-- run_coded_query (main.py lines 124-164).  The identity lock is acquired
before the try block and released in the finally block; the finally block
closes the cursor whenever its local variable was bound, but closes the
connection only under the guard `conn.is_connected()` — a bound connection
that is no longer connected is left unclosed.  HTTPException raised inside
the try block is not a MySQLError, so it propagates past the except clause
and the framework turns it into the corresponding status response. -/
def run_coded_query (env : Env) (req : CodedSQLRequest) : Response × Effects :=
  match lookupTemplate env.registry req.query_code with
  | none =>
      (.httpError 400 "Unknown query code",
       { lockAcquired := true, lockReleased := true })
  | some sql_template =>
      let audit : List AuditRecord := [(req.user_id, sql_template, req.params)]
      if env.poolInit = false then
        (.httpError 503 "Database pool not initialized.",
         { lockAcquired := true, lockReleased := true, auditEnqueued := audit })
      else
        match env.getConn with
        | .error e =>
            (.httpError 500 ("Database query error: " ++ e),
             { lockAcquired := true, lockReleased := true, auditEnqueued := audit })
        | .ok _ =>
            match env.execStmt sql_template req.params with
            | .error e =>
                (.httpError 500 ("Database query error: " ++ e),
                 { lockAcquired := true, lockReleased := true,
                   auditEnqueued := audit, connAcquired := true,
                   cursorOpened := true,
                   execAttempts := [(sql_template, req.params)],
                   cursorClosed := true, connClosed := env.connAlive })
            | .ok (rows, rowcount) =>
                if startsWithKw sql_template "select" then
                  (.success_data rows,
                   { lockAcquired := true, lockReleased := true,
                     auditEnqueued := audit, connAcquired := true,
                     cursorOpened := true,
                     execAttempts := [(sql_template, req.params)],
                     committed := false,
                     cursorClosed := true, connClosed := env.connAlive })
                else
                  (.success_rows_affected rowcount,
                   { lockAcquired := true, lockReleased := true,
                     auditEnqueued := audit, connAcquired := true,
                     cursorOpened := true,
                     execAttempts := [(sql_template, req.params)],
                     committed := true,
                     cursorClosed := true, connClosed := env.connAlive })

/-- A POST /query request end to end: the Depends(verify_api_key) check
runs first and a failure yields 403 before the handler body executes. -/
def handleQuery (env : Env) (sentKey : Option String) (req : CodedSQLRequest) :
    Response × Effects :=
  if verify_api_key env.apiKey sentKey then run_coded_query env req
  else (.httpError 403 "Forbidden: Invalid or missing API Key", emptyEffects)

/-! ### Identity lock registry (main.py lines 95-103)

user_locks is a dict from user id to a threading.Lock; dict_lock serializes
get_user_lock, so every concurrent execution is equivalent to some sequence
of atomic get_user_lock operations.  Lock objects are identified by the
order of their allocation. -/

/-- The registry state: the user_locks dict (as an association list from
user id to lock identity) plus the identity the next allocated Lock()
object will carry. -/
structure LockState where
  user_locks : List (String × Nat)
  nextLock : Nat
deriving DecidableEq

/-- Dict lookup in user_locks. -/
def assocFind : List (String × Nat) → String → Option Nat
  | [], _ => none
  | (k, v) :: rest, u => if k = u then some v else assocFind rest u

/-- get_user_lock: under dict_lock, insert a fresh Lock() if the user id is
unseen, then return the lock stored for it. -/
def get_user_lock (st : LockState) (uid : String) : Nat × LockState :=
  match assocFind st.user_locks uid with
  | some l => (l, st)
  | none => (st.nextLock, ⟨(uid, st.nextLock) :: st.user_locks, st.nextLock + 1⟩)

/-- Run a sequence of get_user_lock calls (any interleaving of concurrent
callers, since dict_lock makes each call atomic); returns the final state
and the list of (user id, returned lock) responses in order. -/
def runCalls : LockState → List String → LockState × List (String × Nat)
  | st, [] => (st, [])
  | st, u :: rest =>
      ((runCalls (get_user_lock st u).2 rest).1,
       (u, (get_user_lock st u).1) :: (runCalls (get_user_lock st u).2 rest).2)

/-! ### Audit worker loop (main.py lines 44-69)

Each iteration of log_worker pulls the front record (or times out when the
queue is empty), attempts the Google Sheets append, and on any exception
logs the failure, sleeps, and puts the record back at the end of the queue.
There is no attempt counter on a record.  `sinkOk` tells whether the append
of a given record succeeds. -/

/-- `n` iterations of the log_worker loop: final queue contents and the
total number of append attempts made.  One iteration pulls the front
record (or times out on an empty queue), attempts the append, and on
failure puts the record back at the end of the queue. -/
def log_worker_run (sinkOk : AuditRecord → Bool) :
    Nat → List AuditRecord → List AuditRecord × Nat
  | 0, q => (q, 0)
  | n + 1, [] => log_worker_run sinkOk n []
  | n + 1, item :: rest =>
      ((log_worker_run sinkOk n (if sinkOk item then rest else rest ++ [item])).1,
       (log_worker_run sinkOk n (if sinkOk item then rest else rest ++ [item])).2 + 1)

/-! ### Concrete inputs used by counterexamples and witnesses -/

/-- A registry binding code 009 to a delete statement. -/
def envDelete : Env :=
  { apiKey := some "k"
    registry := [("009", "delete from users where id = %s")]
    poolInit := true
    getConn := .ok ()
    execStmt := fun _ _ => .ok ([], 1)
    connAlive := true }

def reqDelete : CodedSQLRequest := ⟨"alice", "009", [Scalar.int 7]⟩

/-- A registry binding code 001 (the login flow of the specification) to a
session-count update; the handler treats it as a generic write. -/
def envLogin : Env :=
  { apiKey := some "k"
    registry :=
      [("001", "update users set session_count = session_count + 1 where username = %s")]
    poolInit := true
    getConn := .ok ()
    execStmt := fun _ _ => .ok ([], 1)
    connAlive := true }

def reqLogin : CodedSQLRequest :=
  ⟨"alice", "001", [Scalar.str "alice", Scalar.str "deadbeef"]⟩

/-- The raw text of a database error, as MySQL would word it. -/
def rawDbError : String := "Access denied for user root@10.0.0.5 (using password: YES)"

/-- An environment whose statement execution fails with `rawDbError`. -/
def envDbFail : Env :=
  { apiKey := some "k"
    registry := [("010", "select id from users")]
    poolInit := true
    getConn := .ok ()
    execStmt := fun _ _ => .error rawDbError
    connAlive := true }

def reqDbFail : CodedSQLRequest := ⟨"alice", "010", []⟩

/-- An environment with a select template that succeeds. -/
def envSelect : Env :=
  { apiKey := some "k"
    registry := [("010", "SELECT id FROM users")]
    poolInit := true
    getConn := .ok ()
    execStmt := fun _ _ => .ok ([[("id", Scalar.int 1)]], (-1))
    connAlive := true }

def reqSelect : CodedSQLRequest := ⟨"alice", "010", []⟩

/-- An audit record stuck in front of a permanently failing sink. -/
def stuckRecord : AuditRecord := ("alice", "select 1", [])

/-- An environment in which statement execution fails because the MySQL
connection is lost, so conn.is_connected() reports false in the finally
block. -/
def envDeadConn : Env :=
  { apiKey := some "k"
    registry := [("011", "update users set status = 1 where id = %s")]
    poolInit := true
    getConn := .ok ()
    execStmt := fun _ _ => .error "2013: Lost connection to MySQL server during query"
    connAlive := false }

def reqDeadConn : CodedSQLRequest := ⟨"alice", "011", [Scalar.int 7]⟩

/-! ### Helper lemmas -/

/-- A statement whose normalized text begins with the keyword delete does
not begin with the keyword select. -/
theorem startsWithKw_delete_not_select (s : String)
    (h : startsWithKw s "delete" = true) : startsWithKw s "select" = false := by
  unfold startsWithKw at h ⊢
  cases hl : (pyLower (pyStrip s)).data with
  | nil =>
      rw [hl] at h
      exact absurd h (by decide)
  | cons c cs =>
      rw [hl] at h
      have hde : "delete".data = 'd' :: "elete".data := rfl
      have hse : "select".data = 's' :: "elect".data := rfl
      rw [hde] at h
      rw [hse]
      have hstep : listStarts ('d' :: "elete".data) (c :: cs)
          = (('d' == c) && listStarts "elete".data cs) := rfl
      rw [hstep] at h
      have hc : ('d' == c) = true := by
        cases hdc : ('d' == c) with
        | true => rfl
        | false =>
            rw [hdc, Bool.false_and] at h
            exact absurd h (by decide)
      have hcval : c = 'd' := (eq_of_beq hc).symm
      subst hcval
      show (('s' == 'd') && listStarts "elect".data cs) = false
      rw [show (('s' : Char) == 'd') = false from by decide]
      exact Bool.false_and _

/-! ### Theorems for the claims -/

/-- C6 counterexample: when the connection dies during execution, the guard
conn.is_connected() is false in the finally block, so the acquired
connection is never closed or returned to the pool on that exit path, even
though the lock is released and the cursor closed. -/
theorem dead_connection_not_returned :
    (handleQuery envDeadConn (some "k") reqDeadConn).2.connAcquired = true
  ∧ (handleQuery envDeadConn (some "k") reqDeadConn).2.connClosed = false
  ∧ (handleQuery envDeadConn (some "k") reqDeadConn).2.lockReleased = true
  ∧ (handleQuery envDeadConn (some "k") reqDeadConn).2.cursorClosed = true :=
  ⟨rfl, rfl, rfl, rfl⟩

/-- C6 amended: on every exit path of a /query request the identity lock is
released exactly when it was acquired and the cursor closed exactly when it
was opened, but an acquired connection is closed only when
conn.is_connected() still holds at the finally block — a connection that
died during the request is not returned to its origin. -/
theorem resource_release_guarded (env : Env) (sentKey : Option String)
    (req : CodedSQLRequest) :
    (handleQuery env sentKey req).2.lockReleased
      = (handleQuery env sentKey req).2.lockAcquired
  ∧ (handleQuery env sentKey req).2.cursorClosed
      = (handleQuery env sentKey req).2.cursorOpened
  ∧ (handleQuery env sentKey req).2.connClosed
      = ((handleQuery env sentKey req).2.connAcquired && env.connAlive) := by
  unfold handleQuery run_coded_query
  repeat' split
  all_goals exact ⟨rfl, rfl, rfl⟩

/-- C8: a request (passing the key check) whose query_code is absent from
the registry gets a 400 response, and neither acquires a database
connection nor executes any statement. -/
theorem unknown_code_rejected_before_db (env : Env) (sentKey : Option String)
    (req : CodedSQLRequest)
    (hkey : verify_api_key env.apiKey sentKey = true)
    (hlook : lookupTemplate env.registry req.query_code = none) :
    (handleQuery env sentKey req).1 = .httpError 400 "Unknown query code"
  ∧ (handleQuery env sentKey req).2.connAcquired = false
  ∧ (handleQuery env sentKey req).2.execAttempts = [] := by
  simp [handleQuery, run_coded_query, hkey, hlook]

/-- An environment whose registry is empty, as after a queries.json load
failure. -/
def envEmptyReg : Env :=
  { apiKey := some "k"
    registry := []
    poolInit := true
    getConn := .ok ()
    execStmt := fun _ _ => .ok ([], 0)
    connAlive := true }

/-- C8 witness: on the empty registry (the load-failure state) code 001 is
rejected with 400 and no database work happens. -/
theorem unknown_code_rejected_before_db_witness :
    (handleQuery envEmptyReg (some "k") ⟨"alice", "001", []⟩).1
      = .httpError 400 "Unknown query code"
  ∧ (handleQuery envEmptyReg (some "k") ⟨"alice", "001", []⟩).2.connAcquired = false
  ∧ (handleQuery envEmptyReg (some "k") ⟨"alice", "001", []⟩).2.execAttempts = [] :=
  unknown_code_rejected_before_db envEmptyReg (some "k") ⟨"alice", "001", []⟩ rfl rfl

/-- C10: the audit queue is untouched by requests rejected for a bad API
key or an unknown query code, while a request whose code resolves enqueues
exactly one record — whatever the database then does. -/
theorem audit_enqueued_iff_code_resolves (env : Env) (sentKey : Option String)
    (req : CodedSQLRequest) :
    (verify_api_key env.apiKey sentKey = false →
       (handleQuery env sentKey req).2.auditEnqueued = [])
  ∧ (verify_api_key env.apiKey sentKey = true →
       lookupTemplate env.registry req.query_code = none →
       (handleQuery env sentKey req).2.auditEnqueued = [])
  ∧ (verify_api_key env.apiKey sentKey = true →
       ∀ tmpl, lookupTemplate env.registry req.query_code = some tmpl →
       (handleQuery env sentKey req).2.auditEnqueued
         = [(req.user_id, tmpl, req.params)]) := by
  refine ⟨fun hk => ?_, fun hk hl => ?_, fun hk tmpl hl => ?_⟩
  · simp [handleQuery, hk, emptyEffects]
  · simp [handleQuery, run_coded_query, hk, hl]
  · simp only [handleQuery, run_coded_query, hk, hl, if_true]
    repeat' split
    all_goals rfl

/-- C10 witness: with the resolving environment for code 010 exactly one
audit record is enqueued. -/
theorem audit_enqueued_iff_code_resolves_witness :
    (handleQuery envSelect (some "k") reqSelect).2.auditEnqueued
      = [("alice", "SELECT id FROM users", [])] :=
  (audit_enqueued_iff_code_resolves envSelect (some "k") reqSelect).2.2
    rfl "SELECT id FROM users" rfl

/-- C9: a resolved single statement is executed once with the parameters
bound positionally; a select-classified statement returns the fetched rows
without a commit, any other statement is committed and its affected-row
count returned. -/
theorem single_statement_classification (env : Env) (sentKey : Option String)
    (req : CodedSQLRequest) (tmpl : String) (rows : List Row) (n : Int)
    (hkey : verify_api_key env.apiKey sentKey = true)
    (hlook : lookupTemplate env.registry req.query_code = some tmpl)
    (hpool : env.poolInit = true)
    (hconn : env.getConn = .ok ())
    (hexec : env.execStmt tmpl req.params = .ok (rows, n)) :
    (handleQuery env sentKey req).2.execAttempts = [(tmpl, req.params)]
  ∧ (startsWithKw tmpl "select" = true →
       (handleQuery env sentKey req).1 = .success_data rows
     ∧ (handleQuery env sentKey req).2.committed = false)
  ∧ (startsWithKw tmpl "select" = false →
       (handleQuery env sentKey req).1 = .success_rows_affected n
     ∧ (handleQuery env sentKey req).2.committed = true) := by
  cases hsel : startsWithKw tmpl "select" with
  | true =>
      refine ⟨?_, fun _ => ⟨?_, ?_⟩, fun hco => absurd hco (by decide)⟩ <;>
        simp [handleQuery, run_coded_query, hkey, hlook, hpool, hconn, hexec, hsel]
  | false =>
      refine ⟨?_, fun hco => absurd hco (by decide), fun _ => ⟨?_, ?_⟩⟩ <;>
        simp [handleQuery, run_coded_query, hkey, hlook, hpool, hconn, hexec, hsel]

/-- C9 witness: the select template of envSelect returns its rows without
commit, after a single positional-parameter execution. -/
theorem single_statement_classification_witness :
    (handleQuery envSelect (some "k") reqSelect).2.execAttempts
      = [("SELECT id FROM users", [])]
  ∧ (handleQuery envSelect (some "k") reqSelect).1
      = .success_data [[("id", Scalar.int 1)]]
  ∧ (handleQuery envSelect (some "k") reqSelect).2.committed = false :=
  ⟨(single_statement_classification envSelect (some "k") reqSelect
      "SELECT id FROM users" [[("id", Scalar.int 1)]] (-1) rfl rfl rfl rfl rfl).1,
   ((single_statement_classification envSelect (some "k") reqSelect
      "SELECT id FROM users" [[("id", Scalar.int 1)]] (-1) rfl rfl rfl rfl rfl).2.1 rfl).1,
   ((single_statement_classification envSelect (some "k") reqSelect
      "SELECT id FROM users" [[("id", Scalar.int 1)]] (-1) rfl rfl rfl rfl rfl).2.1 rfl).2⟩

/-- C1 counterexample: the resolved statement of code 009 begins with the
keyword delete, yet the request is not rejected — a connection is acquired,
the statement is executed and the affected-row count returned. -/
theorem delete_statement_not_rejected :
    startsWithKw "delete from users where id = %s" "delete" = true
  ∧ (handleQuery envDelete (some "k") reqDelete).1 = .success_rows_affected 1
  ∧ (handleQuery envDelete (some "k") reqDelete).2.connAcquired = true
  ∧ (handleQuery envDelete (some "k") reqDelete).2.execAttempts
      = [("delete from users where id = %s", [Scalar.int 7])] :=
  ⟨by decide, rfl, rfl, rfl⟩

/-- C1 amended: run_coded_query has no destructive-verb check; a resolved
statement whose normalized text begins with delete is handled like any
other non-select statement — connection acquired, statement executed,
transaction committed, affected-row count returned. -/
theorem delete_statement_executed_as_write (env : Env) (sentKey : Option String)
    (req : CodedSQLRequest) (tmpl : String) (rows : List Row) (n : Int)
    (hkey : verify_api_key env.apiKey sentKey = true)
    (hlook : lookupTemplate env.registry req.query_code = some tmpl)
    (hdel : startsWithKw tmpl "delete" = true)
    (hpool : env.poolInit = true)
    (hconn : env.getConn = .ok ())
    (hexec : env.execStmt tmpl req.params = .ok (rows, n)) :
    (handleQuery env sentKey req).1 = .success_rows_affected n
  ∧ (handleQuery env sentKey req).2.connAcquired = true
  ∧ (handleQuery env sentKey req).2.execAttempts = [(tmpl, req.params)]
  ∧ (handleQuery env sentKey req).2.committed = true := by
  have hsel := startsWithKw_delete_not_select tmpl hdel
  simp [handleQuery, run_coded_query, hkey, hlook, hpool, hconn, hexec, hsel]

/-- C1 witness: the amended behavior at the concrete delete environment. -/
theorem delete_statement_executed_as_write_witness :
    (handleQuery envDelete (some "k") reqDelete).1 = .success_rows_affected 1
  ∧ (handleQuery envDelete (some "k") reqDelete).2.connAcquired = true
  ∧ (handleQuery envDelete (some "k") reqDelete).2.execAttempts
      = [("delete from users where id = %s", [Scalar.int 7])]
  ∧ (handleQuery envDelete (some "k") reqDelete).2.committed = true :=
  delete_statement_executed_as_write envDelete (some "k") reqDelete
    "delete from users where id = %s" [] 1 rfl rfl (by decide) rfl rfl rfl

/-- C2 counterexample: with code 001 bound to its session-count update, a
request carrying a correct username and a wrong credential hash is answered
by the generic write path — a committed success with a row count — not by
the structured body with code 002. -/
theorem login_code_001_no_business_outcome :
    (handleQuery envLogin (some "k") reqLogin).1 = .success_rows_affected 1
  ∧ (handleQuery envLogin (some "k") reqLogin).2.committed = true
  ∧ Response.success_rows_affected 1 ≠ Response.codeBody "002" :=
  ⟨rfl, rfl, by decide⟩

/-- C2 amended: the handler has no multi-step login flow at all; no request
ever receives a response of the shape with a three-digit code field, and no
credential check or rollback exists on the 001 path. -/
theorem no_code_body_response (env : Env) (sentKey : Option String)
    (req : CodedSQLRequest) (c : String) :
    (handleQuery env sentKey req).1 ≠ .codeBody c := by
  unfold handleQuery run_coded_query
  repeat' split
  all_goals intro h
  all_goals exact Response.noConfusion h

/-- C2 witness: the amended statement at the concrete 001 request. -/
theorem no_code_body_response_witness :
    (handleQuery envLogin (some "k") reqLogin).1 ≠ .codeBody "002" :=
  no_code_body_response envLogin (some "k") reqLogin "002"

/-- C4 counterexample: a database failure during execution is answered with
status 500 whose detail embeds the raw database error text verbatim. -/
theorem db_error_detail_leaks_raw_text :
    (handleQuery envDbFail (some "k") reqDbFail).1
      = .httpError 500 ("Database query error: " ++ rawDbError)
  ∧ rawDbError ≠ "" :=
  ⟨rfl, by decide⟩

/-- C4 amended: every database-level failure during statement execution
yields a 500 whose detail is the string "Database query error: " followed
by the raw database error text — the status code matches the claim but the
message is not sanitized. -/
theorem db_error_response_shape (env : Env) (sentKey : Option String)
    (req : CodedSQLRequest) (tmpl e : String)
    (hkey : verify_api_key env.apiKey sentKey = true)
    (hlook : lookupTemplate env.registry req.query_code = some tmpl)
    (hpool : env.poolInit = true)
    (hconn : env.getConn = .ok ())
    (hexec : env.execStmt tmpl req.params = .error e) :
    (handleQuery env sentKey req).1
      = .httpError 500 ("Database query error: " ++ e) := by
  simp [handleQuery, run_coded_query, hkey, hlook, hpool, hconn, hexec]

/-- C4 witness: the amended response shape at the concrete failing
environment. -/
theorem db_error_response_shape_witness :
    (handleQuery envDbFail (some "k") reqDbFail).1
      = .httpError 500 ("Database query error: " ++ rawDbError) :=
  db_error_response_shape envDbFail (some "k") reqDbFail
    "select id from users" rawDbError rfl rfl rfl rfl rfl

/-- C5 counterexample: the header value " secret " differs from the
configured key "secret", yet the check accepts it, because both sides are
stripped before comparison. -/
theorem api_key_not_exact_match :
    verify_api_key (some "secret") (some " secret ") = true
  ∧ " secret " ≠ "secret" :=
  ⟨by decide, by decide⟩

/-- C5 amended: a request passes the key check exactly when an API key is
configured and non-empty, the x-api-key header is present and non-empty,
and the two values agree after stripping surrounding whitespace; in
particular a missing header or an unconfigured key always yields 403. -/
theorem api_key_check_characterization (apiKey sentKey : Option String) :
    verify_api_key apiKey sentKey = true ↔
      ∃ k s, apiKey = some k ∧ sentKey = some s ∧ k ≠ "" ∧ s ≠ ""
        ∧ pyStrip s = pyStrip k := by
  cases apiKey with
  | none => simp [verify_api_key]
  | some k =>
      cases sentKey with
      | none => simp [verify_api_key]
      | some s =>
          by_cases hk : k = "" <;> by_cases hs : s = "" <;>
            simp [verify_api_key, hk, hs, beq_iff_eq]

/-- C5 witness: the amended characterization applied to a stripped-match
acceptance. -/
theorem api_key_check_characterization_witness :
    verify_api_key (some "secret") (some " secret ") = true :=
  (api_key_check_characterization (some "secret") (some " secret ")).mpr
    ⟨"secret", " secret ", rfl, rfl, by decide, by decide, by decide⟩

/-! ### Lock-registry lemmas for C7 -/

/-- get_user_lock never rebinds an identity that already has a lock. -/
theorem assocFind_get_user_lock_preserved (st : LockState) (uid u : String)
    (l : Nat) (h : assocFind st.user_locks u = some l) :
    assocFind (get_user_lock st uid).2.user_locks u = some l := by
  unfold get_user_lock
  cases hf : assocFind st.user_locks uid with
  | some x => simpa using h
  | none =>
      by_cases he : uid = u
      · subst he
        rw [hf] at h
        exact absurd h (by simp)
      · simpa [assocFind, he] using h

/-- After get_user_lock, the registry stores exactly the returned lock for
the requested identity. -/
theorem assocFind_get_user_lock_self (st : LockState) (uid : String) :
    assocFind (get_user_lock st uid).2.user_locks uid
      = some (get_user_lock st uid).1 := by
  unfold get_user_lock
  cases hf : assocFind st.user_locks uid with
  | some x => simpa using hf
  | none => simp [assocFind]

/-- Existing bindings survive any further sequence of calls. -/
theorem runCalls_preserves_binding (calls : List String) (st : LockState)
    (u : String) (l : Nat) (h : assocFind st.user_locks u = some l) :
    assocFind (runCalls st calls).1.user_locks u = some l := by
  induction calls generalizing st with
  | nil => simpa using h
  | cons v rest ih =>
      simp only [runCalls]
      exact ih _ (assocFind_get_user_lock_preserved st v u l h)

/-- Every response handed out during a run agrees with the final registry
contents. -/
theorem runCalls_response_in_registry (calls : List String) (st : LockState)
    (u : String) (l : Nat) (h : (u, l) ∈ (runCalls st calls).2) :
    assocFind (runCalls st calls).1.user_locks u = some l := by
  induction calls generalizing st with
  | nil => simp [runCalls] at h
  | cons v rest ih =>
      simp only [runCalls] at h ⊢
      rcases List.mem_cons.mp h with heq | hmem
      · obtain ⟨hu, hl⟩ := Prod.mk.injEq u l v (get_user_lock st v).1 ▸ heq
        subst hu
        subst hl
        exact runCalls_preserves_binding rest _ _ _
          (assocFind_get_user_lock_self st u)
      · exact ih _ hmem

/-- An identity with no binding does not occur among the registry keys. -/
theorem not_mem_keys_of_assocFind_none (locks : List (String × Nat))
    (u : String) (h : assocFind locks u = none) :
    u ∉ locks.map Prod.fst := by
  induction locks with
  | nil => simp
  | cons p rest ih =>
      obtain ⟨k, v⟩ := p
      by_cases he : k = u
      · subst he
        simp [assocFind] at h
      · simp only [assocFind, he, if_false] at h
        simp [Ne.symm he, ih h]

/-- get_user_lock keeps the registry keys duplicate-free. -/
theorem get_user_lock_keys_nodup (st : LockState)
    (h : (st.user_locks.map Prod.fst).Nodup) (uid : String) :
    ((get_user_lock st uid).2.user_locks.map Prod.fst).Nodup := by
  unfold get_user_lock
  cases hf : assocFind st.user_locks uid with
  | some x => simpa using h
  | none =>
      simp only [List.map_cons]
      exact List.nodup_cons.mpr ⟨not_mem_keys_of_assocFind_none _ _ hf, h⟩

/-- Any run keeps the registry keys duplicate-free. -/
theorem runCalls_keys_nodup (calls : List String) (st : LockState)
    (h : (st.user_locks.map Prod.fst).Nodup) :
    ((runCalls st calls).1.user_locks.map Prod.fst).Nodup := by
  induction calls generalizing st with
  | nil => simpa using h
  | cons v rest ih =>
      simp only [runCalls]
      exact ih _ (get_user_lock_keys_nodup st h v)

/-- C7: over any sequence of registry calls from process start (each call
atomic under dict_lock, so any concurrent interleaving is such a
sequence), all calls naming the same identity receive the same lock
object, and the registry never holds two locks for one identity. -/
theorem one_lock_per_identity (calls : List String) :
    (∀ u l1 l2, (u, l1) ∈ (runCalls ⟨[], 0⟩ calls).2 →
        (u, l2) ∈ (runCalls ⟨[], 0⟩ calls).2 → l1 = l2)
  ∧ ((runCalls ⟨[], 0⟩ calls).1.user_locks.map Prod.fst).Nodup := by
  constructor
  · intro u l1 l2 h1 h2
    have e1 := runCalls_response_in_registry calls ⟨[], 0⟩ u l1 h1
    have e2 := runCalls_response_in_registry calls ⟨[], 0⟩ u l2 h2
    rw [e1] at e2
    exact Option.some.inj e2
  · exact runCalls_keys_nodup calls ⟨[], 0⟩ (by simp)

/-- C7 witness: in the run alice, bob, alice the first and third call
return the same lock, and the final registry keys are duplicate-free. -/
theorem one_lock_per_identity_witness :
    (0 : Nat) = 0
  ∧ ((runCalls ⟨[], 0⟩ ["alice", "bob", "alice"]).1.user_locks.map
      Prod.fst).Nodup :=
  ⟨(one_lock_per_identity ["alice", "bob", "alice"]).1 "alice" 0 0
      (by decide) (by decide),
   (one_lock_per_identity ["alice", "bob", "alice"]).2⟩

/-- C3: against a sink that rejects every append, after n worker iterations
the record is still queued and has been attempted n times — the record is
never dropped, but it is also retried without any bound, against the one
automatic retry announced by the comment on line 67 of main.py. -/
theorem audit_retry_unbounded (n : Nat) :
    log_worker_run (fun _ => false) n [stuckRecord] = ([stuckRecord], n) := by
  induction n with
  | zero => rfl
  | succ m ih => simp [log_worker_run, ih]

end Madox
